import Mathlib

/-!
Verification of the colormap-demonstration notebook helpers
(`src/examples/user_guide/index.ipynb`, code cell 2).

The notebook defines two helper functions:

```python
xs, ys = np.meshgrid(np.linspace(0, 1, 80), np.linspace(0, 1, 10))

def colormap(name, cmap=None, array=xs):
    if cmap is None:
        cmap = cc.cm[name]
    options = hv.opts.Image(xaxis=None, yaxis=None, aspect=3, fig_size=200, cmap=cmap)
    return hv.Image(array, group=name).opts(options)

def colormaps(named_cms, array=xs, cols=3, skip_r=True, size=100):
    if skip_r:
        named_cms = list(filter(lambda x: not x[0].endswith('_r'), named_cms))
    options = hv.opts.Layout(sublabel_format=None, fig_size=size)
    return hv.Layout([colormap(name, cm, array) for name, cm in named_cms]).opts(options).cols(cols)
```

We embed these shallowly: machine floats become rationals, the external
registry `cc.cm` becomes a partial map `String → Option Cmap`, a failed
dictionary lookup (Python `KeyError`) becomes `Except.error` carrying the
missing key, and the holoviews display objects become records carrying
exactly the data the calls construct.
-/

/-- A 2-dimensional numeric array (list of rows), rationals standing in
for the floating-point entries. -/
def NDArray : Type := List (List ℚ)

instance : DecidableEq NDArray := by
  unfold NDArray
  infer_instance

/-- Numpy `np.linspace a b n`: `n` evenly spaced samples from `a` to `b`
inclusive.  For `n ≤ 1` numpy returns `n` copies of `a`. -/
def linspace (a b : ℚ) (n : Nat) : List ℚ :=
  if n ≤ 1 then List.replicate n a
  else (List.range n).map (fun (i : Nat) => a + (b - a) * i / ((n : ℚ) - 1))

/-- The first result of `np.meshgrid xv yv`: the row `xv` repeated once
per entry of `yv`. -/
def meshgrid_fst (xv yv : List ℚ) : List (List ℚ) :=
  yv.map (fun _ => xv)

/-- The notebook global `xs`, first component of
`np.meshgrid(np.linspace(0, 1, 80), np.linspace(0, 1, 10))`. -/
def xs : NDArray :=
  meshgrid_fst (linspace 0 1 80) (linspace 0 1 10)

/-- The options record built by `hv.opts.Image(xaxis=None, yaxis=None,
aspect=3, fig_size=200, cmap=cmap)`.  `Cmap` is the type of colormap
objects, opaque to this code (matplotlib colormaps or name strings). -/
structure ImageOpts (Cmap : Type) where
  xaxis : Option Unit
  yaxis : Option Unit
  aspect : Nat
  fig_size : Nat
  cmap : Cmap
deriving DecidableEq

/-- The display object returned by `hv.Image(array, group=name).opts(options)`. -/
structure HVImage (Cmap : Type) where
  array : NDArray
  group : String
  opts : ImageOpts Cmap
deriving DecidableEq

/-- The options record built by
`hv.opts.Layout(sublabel_format=None, fig_size=size)`. -/
structure LayoutOpts where
  sublabel_format : Option String
  fig_size : Nat
deriving DecidableEq

/-- The display object returned by `hv.Layout([...]).opts(options).cols(cols)`:
the rendered swatches in order, the layout options, and the column count at
which the grid wraps. -/
structure HVLayout (Cmap : Type) where
  items : List (HVImage Cmap)
  opts : LayoutOpts
  cols : Nat
deriving DecidableEq

/-- The external registry `cc.cm`: lookup of a colormap by name, which may
fail (`KeyError`). -/
def Registry (Cmap : Type) : Type := String → Option Cmap

/-- The single-swatch renderer `colormap(name, cmap=None, array=xs)`.
When `cmap` is `None` it is looked up as `cc.cm[name]`; a missing key
raises, modelled as `Except.error name`. -/
def colormap {Cmap : Type} (cm : Registry Cmap) (name : String)
    (cmap : Option Cmap) (array : NDArray) : Except String (HVImage Cmap) := do
  let cmap ← match cmap with
    | some c => pure c
    | none =>
      match cm name with
      | some c => pure c
      | none => Except.error name
  pure { array := array, group := name,
         opts := { xaxis := none, yaxis := none, aspect := 3,
                   fig_size := 200, cmap := cmap } }

/-- Python `s.endswith(suffix)`: the characters of `suffix` are a suffix
of the characters of `s`. -/
def endswith (s suffix : String) : Bool :=
  suffix.data.isSuffixOf s.data

/-- The filtering step of `colormaps`:
`if skip_r: named_cms = list(filter(lambda x: not x[0].endswith('_r'), named_cms))`. -/
def skipReversed {Cmap : Type} (skip_r : Bool)
    (named_cms : List (String × Cmap)) : List (String × Cmap) :=
  if skip_r then
    named_cms.filter (fun x => !(endswith x.1 "_r"))
  else named_cms

/-- The list comprehension `[colormap(name, cm, array) for name, cm in named_cms]`,
evaluated left to right; an exception raised by any call aborts the whole
comprehension. -/
def renderAll {Cmap : Type} (cm : Registry Cmap) (array : NDArray) :
    List (String × Cmap) → Except String (List (HVImage Cmap))
  | [] => Except.ok []
  | (name, c) :: rest => do
    let img ← colormap cm name (some c) array
    let imgs ← renderAll cm array rest
    pure (img :: imgs)

/-- The grid-layout renderer
`colormaps(named_cms, array=xs, cols=3, skip_r=True, size=100)`. -/
def colormaps {Cmap : Type} (cm : Registry Cmap)
    (named_cms : List (String × Cmap)) (array : NDArray) (cols : Nat)
    (skip_r : Bool) (size : Nat) : Except String (HVLayout Cmap) := do
  let ncms := skipReversed skip_r named_cms
  let imgs ← renderAll cm array ncms
  pure { items := imgs,
         opts := { sublabel_format := none, fig_size := size },
         cols := cols }

/-- The call of `colormaps` with every optional argument omitted, as in
the notebook call `colormaps(cc.cm_n.items())`: the defaults from the
signature are `array=xs`, `cols=3`, `skip_r=True`, `size=100`. -/
def colormapsDefault {Cmap : Type} (cm : Registry Cmap)
    (named_cms : List (String × Cmap)) : Except String (HVLayout Cmap) :=
  colormaps cm named_cms xs 3 true 100

/-- The rows of a grid holding `l`'s entries in order and wrapping after
every `cols` entries; models how the external layout engine arranges a
layout whose column count is `cols`. -/
def toRows {α : Type} (cols : Nat) (l : List α) : List (List α) :=
  match l with
  | [] => []
  | x :: rest =>
    if h : cols = 0 then [x :: rest]
    else (x :: rest).take cols :: toRows cols ((x :: rest).drop cols)
termination_by l.length
decreasing_by
  simp only [List.length_drop, List.length_cons]
  exact Nat.sub_lt (Nat.succ_pos _) (Nat.pos_of_ne_zero h)

/-- The grid of rows displayed for a layout: its items wrapped at its
column count. -/
def gridOf {Cmap : Type} (L : HVLayout Cmap) : List (List (HVImage Cmap)) :=
  toRows L.cols L.items

/-- The swatch record that `colormap` builds for colormap object `c`,
name `name`, and input `array`. -/
def renderedSwatch {Cmap : Type} (array : NDArray) (name : String)
    (c : Cmap) : HVImage Cmap :=
  { array := array, group := name,
    opts := { xaxis := none, yaxis := none, aspect := 3,
              fig_size := 200, cmap := c } }

theorem endswith_iff_suffix (s post : String) :
    endswith s post = true ↔ post.data <:+ s.data := by
  simp [endswith, List.isSuffixOf_iff_suffix]

theorem colormap_some {Cmap : Type} (cm : Registry Cmap) (name : String)
    (c : Cmap) (array : NDArray) :
    colormap cm name (some c) array = Except.ok (renderedSwatch array name c) := rfl

theorem renderAll_eq {Cmap : Type} (cm : Registry Cmap) (array : NDArray)
    (l : List (String × Cmap)) :
    renderAll cm array l =
      Except.ok (l.map (fun p => renderedSwatch array p.1 p.2)) := by
  induction l with
  | nil => rfl
  | cons p rest ih =>
    obtain ⟨name, c⟩ := p
    simp only [renderAll, colormap_some, ih, List.map_cons]
    rfl

theorem colormaps_eq {Cmap : Type} (cm : Registry Cmap)
    (named_cms : List (String × Cmap)) (array : NDArray) (cols : Nat)
    (skip_r : Bool) (size : Nat) :
    colormaps cm named_cms array cols skip_r size =
      Except.ok
        { items := (skipReversed skip_r named_cms).map
            (fun p => renderedSwatch array p.1 p.2),
          opts := { sublabel_format := none, fig_size := size },
          cols := cols } := by
  simp [colormaps, renderAll_eq, Except.bind]

theorem toRows_length {α : Type} (cols : Nat) (hc : 0 < cols) :
    ∀ l : List α, (toRows cols l).length = (l.length + cols - 1) / cols
  | [] => by
    simp only [toRows, List.length_nil, Nat.zero_add]
    exact (Nat.div_eq_of_lt (Nat.sub_lt hc Nat.one_pos)).symm
  | x :: rest => by
    have hne : cols ≠ 0 := Nat.pos_iff_ne_zero.mp hc
    have ih := toRows_length cols hc ((x :: rest).drop cols)
    rw [toRows, dif_neg hne]
    simp only [List.length_cons, List.length_drop, List.length_cons] at ih ⊢
    rw [ih]
    rcases le_or_lt cols (rest.length + 1) with h1 | h1
    · rw [Nat.sub_add_cancel h1]
      have h2 : rest.length + 1 + cols - 1 = (rest.length + 1 - 1) + cols := by omega
      rw [h2, Nat.add_div_right _ hc]
    · have h0 : rest.length + 1 - cols = 0 := Nat.sub_eq_zero_of_le (Nat.le_of_lt h1)
      rw [h0]
      have hL : (0 + cols - 1) / cols = 0 := Nat.div_eq_of_lt (by omega)
      have hR : (rest.length + 1 + cols - 1) / cols = 1 :=
        Nat.div_eq_of_lt_le (by omega) (by omega)
      rw [hL, hR]
termination_by l => l.length
decreasing_by
  simp only [List.length_drop, List.length_cons]
  exact Nat.sub_lt (Nat.succ_pos _) hc

/-- C1: with the skip-reversed flag set, the filter applied by the
grid-layout renderer keeps the surviving pairs in their original relative
order (the result is a sublist of the input) and removes exactly the pairs
whose name ends in `"_r"` (such a pair has multiplicity `0` afterwards,
every other pair keeps its multiplicity). -/
theorem spec_skip_filter_removes_reversed_keeps_order {Cmap : Type}
    [DecidableEq Cmap] (l : List (String × Cmap)) :
    (skipReversed true l).Sublist l ∧
      ∀ p : String × Cmap, (skipReversed true l).count p =
        if "_r".data <:+ p.1.data then 0 else l.count p := by
  constructor
  · simp only [skipReversed, if_pos]
    exact List.filter_sublist l
  · intro p
    by_cases hp : "_r".data <:+ p.1.data
    · rw [if_pos hp]
      refine List.count_eq_zero.mpr ?_
      intro hmem
      have h2 : p ∈ l ∧ endswith p.1 "_r" = false := by
        simpa [skipReversed] using hmem
      have h3 : endswith p.1 "_r" = true := (endswith_iff_suffix _ _).mpr hp
      rw [h2.2] at h3
      exact Bool.false_ne_true h3
    · rw [if_neg hp]
      simp only [skipReversed, if_pos]
      rw [List.count_filter]
      simp only [Bool.not_eq_true']
      exact Bool.eq_false_iff.mpr (fun h4 => hp ((endswith_iff_suffix _ _).mp h4))

/-- C2: on the concrete input
`[("fire", a), ("fire_r", b), ("rainbow", c)]` with the skip flag set, the
filtered sequence that the grid-layout renderer passes on to rendering is
`[("fire", a), ("rainbow", c)]`, and the rendered layout holds exactly the
swatches of those two entries. -/
theorem spec_skip_filter_concrete_example :
    skipReversed true [("fire", 0), ("fire_r", 1), ("rainbow", 2)] =
        [("fire", (0 : Nat)), ("rainbow", 2)] ∧
      colormaps (fun _ => (none : Option Nat))
          [("fire", 0), ("fire_r", 1), ("rainbow", 2)] xs 3 true 100 =
        Except.ok
          { items := [renderedSwatch xs "fire" 0, renderedSwatch xs "rainbow" 2],
            opts := { sublabel_format := none, fig_size := 100 },
            cols := 3 } := by
  constructor
  · decide
  · rw [colormaps_eq]
    have h1 : skipReversed true [("fire", (0 : Nat)), ("fire_r", 1), ("rainbow", 2)] =
        [("fire", 0), ("rainbow", 2)] := by decide
    rw [h1]
    rfl

/-- C3: for any input sequence, any column count `C > 0` and any other
arguments, the grid produced by the grid-layout renderer has exactly
`⌈N / C⌉` rows, where `N` is the number of items after filtering. -/
theorem spec_grid_row_count_is_ceil {Cmap : Type} (cm : Registry Cmap)
    (named_cms : List (String × Cmap)) (array : NDArray) (cols : Nat)
    (skip_r : Bool) (size : Nat) (hc : 0 < cols) :
    (colormaps cm named_cms array cols skip_r size).map
        (fun L => (gridOf L).length) =
      Except.ok ((skipReversed skip_r named_cms).length ⌈/⌉ cols) := by
  rw [colormaps_eq]
  simp only [Except.map, gridOf, Except.ok.injEq]
  rw [toRows_length _ hc, List.length_map, Nat.ceilDiv_eq_add_pred_div]

/-- Witness for C3: seven items, no filtering, three columns give a grid
of `⌈7 / 3⌉ = 3` rows. -/
theorem spec_grid_row_count_is_ceil_witness :
    (colormaps (fun _ => (none : Option Nat))
          [("a", 0), ("b", 1), ("c", 2), ("d", 3), ("e", 4), ("f", 5), ("g", 6)]
          xs 3 false 100).map
        (fun L => (gridOf L).length) = Except.ok 3 := by
  rw [spec_grid_row_count_is_ceil (fun _ => (none : Option Nat))
    [("a", 0), ("b", 1), ("c", 2), ("d", 3), ("e", 4), ("f", 5), ("g", 6)]
    xs 3 false 100 (by decide)]
  rfl

/-- C4: the single-swatch renderer applies the explicitly supplied
colormap when one is given, and when none is given it applies the one the
registry yields for the name. -/
theorem spec_swatch_cmap_selection {Cmap : Type} (cm : Registry Cmap)
    (name : String) (c : Cmap) (array : NDArray) :
    colormap cm name (some c) array = Except.ok (renderedSwatch array name c) ∧
      (cm name = some c →
        colormap cm name none array = Except.ok (renderedSwatch array name c)) := by
  refine ⟨colormap_some cm name c array, fun h => ?_⟩
  unfold colormap
  rw [h]
  rfl

/-- Witness for C4: a registry sending every name to colormap `7`; with
an explicit colormap `5` the swatch uses `5`, with none it uses `7`. -/
theorem spec_swatch_cmap_selection_witness :
    colormap (fun _ => some 7) "fire" (some (5 : Nat)) [] =
        Except.ok (renderedSwatch [] "fire" 5) ∧
      colormap (fun _ => some 7) "fire" (none : Option Nat) [] =
        Except.ok (renderedSwatch [] "fire" 7) :=
  ⟨(spec_swatch_cmap_selection (fun _ => some 7) "fire" 5 []).1,
    (spec_swatch_cmap_selection (fun _ => some 7) "fire" 7 []).2 rfl⟩

/-- C5: when the name is absent from the registry and no explicit
colormap is given, the single-swatch renderer surfaces the lookup failure
unchanged (the error carries exactly the missing name) and produces no
swatch. -/
theorem spec_lookup_failure_propagates {Cmap : Type} (cm : Registry Cmap)
    (name : String) (array : NDArray) (h : cm name = none) :
    colormap cm name none array = Except.error name := by
  unfold colormap
  rw [h]
  rfl

/-- Witness for C5: the empty registry makes the renderer fail with the
requested name. -/
theorem spec_lookup_failure_propagates_witness :
    colormap (fun _ => (none : Option Nat)) "missing" none xs =
      Except.error "missing" :=
  spec_lookup_failure_propagates (fun _ => (none : Option Nat)) "missing" xs rfl

/-- C6: the default input array is 10 identical rows of 80 values, the
row being the linear gradient `j / 79` for `j = 0, …, 79` (so the value
at any position depends only on its column, starts at `0`, ends at `1`,
and increases linearly left to right). -/
theorem spec_default_input_gradient :
    xs = List.replicate 10 ((List.range 80).map (fun (j : Nat) => (j : ℚ) / 79)) ∧
      List.map List.length xs = List.replicate 10 80 := by
  have hrow : linspace 0 1 80 = (List.range 80).map (fun (j : Nat) => (j : ℚ) / 79) := by
    rw [linspace, if_neg (by norm_num)]
    refine List.map_congr_left ?_
    intro i _
    norm_num
  have hxs : xs = List.replicate 10 ((List.range 80).map (fun (j : Nat) => (j : ℚ) / 79)) := by
    rw [xs, meshgrid_fst, hrow, List.map_const']
    have hlen : (linspace 0 1 10).length = 10 := by
      rw [linspace, if_neg (by norm_num)]
      simp
    rw [hlen]
  refine ⟨hxs, ?_⟩
  rw [hxs, List.map_replicate]
  simp

/-- C7: both renderers are deterministic; calls with equal arguments
yield equal results (in the embedding every ambient value the source
reads, the registry included, is an explicit argument, so there is no
hidden state). -/
theorem spec_renderers_deterministic {Cmap : Type}
    (cm cm2 : Registry Cmap) (name name2 : String) (cmap cmap2 : Option Cmap)
    (array array2 : NDArray) (l l2 : List (String × Cmap)) (cols cols2 : Nat)
    (sk sk2 : Bool) (size size2 : Nat)
    (h1 : cm = cm2) (h2 : name = name2) (h3 : cmap = cmap2)
    (h4 : array = array2) (h5 : l = l2) (h6 : cols = cols2)
    (h7 : sk = sk2) (h8 : size = size2) :
    colormap cm name cmap array = colormap cm2 name2 cmap2 array2 ∧
      colormaps cm l array cols sk size =
        colormaps cm2 l2 array2 cols2 sk2 size2 := by
  subst h1 h2 h3 h4 h5 h6 h7 h8
  exact ⟨rfl, rfl⟩

/-- Witness for C7 at concrete arguments. -/
theorem spec_renderers_deterministic_witness :
    colormap (fun _ => (none : Option Nat)) "fire" (some 1) [] =
        colormap (fun _ => (none : Option Nat)) "fire" (some 1) [] ∧
      colormaps (fun _ => (none : Option Nat)) [("fire", 1)] [] 3 true 100 =
        colormaps (fun _ => (none : Option Nat)) [("fire", 1)] [] 3 true 100 :=
  spec_renderers_deterministic (fun _ => (none : Option Nat)) _ "fire" _
    (some 1) _ [] _ [("fire", 1)] _ 3 _ true _ 100 _
    rfl rfl rfl rfl rfl rfl rfl rfl

/-- C8: for a name the registry maps to some colormap, the single-swatch
renderer does not raise: the call with no explicit colormap returns a
swatch, never the error branch. -/
theorem spec_valid_name_renders_ok {Cmap : Type} (cm : Registry Cmap)
    (name : String) (c : Cmap) (array : NDArray) (h : cm name = some c) :
    colormap cm name none array = Except.ok (renderedSwatch array name c) := by
  unfold colormap
  rw [h]
  rfl

/-- Witness for C8: a one-entry registry renders its entry successfully. -/
theorem spec_valid_name_renders_ok_witness :
    colormap (fun _ => some 4) "fire" (none : Option Nat) xs =
      Except.ok (renderedSwatch xs "fire" 4) :=
  spec_valid_name_renders_ok (fun _ => some 4) "fire" 4 xs rfl

/-- C9: neither renderer alters its inputs: the swatch embeds the input
array verbatim, and the layout's items carry exactly the (name, colormap)
pairs of the (filtered) input sequence and the input array, all
unchanged. -/
theorem spec_inputs_passed_through_unchanged {Cmap : Type} (cm : Registry Cmap)
    (name : String) (c : Cmap) (array : NDArray)
    (l : List (String × Cmap)) (cols : Nat) (sk : Bool) (size : Nat) :
    (colormap cm name (some c) array).map (fun img => img.array) =
        Except.ok array ∧
      (colormaps cm l array cols sk size).map
          (fun L => L.items.map (fun img => (img.group, img.opts.cmap))) =
        Except.ok (skipReversed sk l) ∧
      (colormaps cm l array cols sk size).map
          (fun L => L.items.map (fun img => img.array)) =
        Except.ok ((skipReversed sk l).map (fun _ => array)) := by
  refine ⟨rfl, ?_, ?_⟩ <;>
    rw [colormaps_eq] <;>
    simp [Except.map, renderedSwatch, List.map_map, Function.comp_def,
      Prod.mk.eta, List.map_const']

/-- C10: the grid-layout renderer's defaults: omitting the optional
arguments is the call with `array = xs`, `cols = 3`, `skip_r = True`,
`size = 100`; in particular the produced layout wraps at 3 columns, and
the reversal marker tested on the name component of each pair is exactly
the literal suffix `"_r"`. -/
theorem spec_default_arguments :
    (∀ (Cmap : Type) (cm : Registry Cmap) (l : List (String × Cmap)),
        colormapsDefault cm l = colormaps cm l xs 3 true 100) ∧
      (∀ (Cmap : Type) (cm : Registry Cmap) (l : List (String × Cmap)),
        (colormapsDefault cm l).map (fun L => L.cols) = Except.ok 3) ∧
      (∀ (name : String) (c : Nat),
        skipReversed true [(name, c)] =
          if "_r".data <:+ name.data then [] else [(name, c)]) := by
  refine ⟨fun _ _ _ => rfl, fun Cmap cm l => ?_, fun name c => ?_⟩
  · rw [colormapsDefault, colormaps_eq]
    rfl
  · by_cases h : "_r".data <:+ name.data
    · rw [if_pos h]
      have he : endswith name "_r" = true := (endswith_iff_suffix _ _).mpr h
      simp [skipReversed, List.filter_cons, he]
    · rw [if_neg h]
      have he : endswith name "_r" = false :=
        Bool.eq_false_iff.mpr (fun hx => h ((endswith_iff_suffix _ _).mp hx))
      simp [skipReversed, List.filter_cons, he]
